import Mathlib

/-!
Verification of the in-vue visibility-gated retrying loader.

The repository (src/lib/main.ts and the variant src/unnamed/part_000) exports
defineInVueComponent, which wraps Vue's defineAsyncComponent with
  - an IntersectionObserver gate: the real loader is invoked only once the
    placeholder element becomes visible (or immediately when the host has no
    IntersectionObserver), and
  - an onError handler implementing bounded retries with exponential backoff
    plus jitter.

This file shallowly embeds those parts and settles the frozen claims about
them.  Machine numbers are modelled as ℚ (the arithmetic the source performs
is exact on the inputs considered), the async-component machinery that drives
the loader/onError protocol and the IntersectionObserver event delivery are
modelled explicitly as the external collaborators the spec describes.
-/

/-- Action taken by the onError handler: either terminal failure (the code
calls fail()) or scheduling a retry after the given delay in milliseconds
(the code calls setTimeout(retry, jitteredDelay)). -/
inductive OnErrorAction where
  | fail
  | scheduleRetry (delayMs : ℚ)
deriving DecidableEq, Repr

/-- Jittered exponential-backoff delay computed by onError
(src/lib/main.ts lines 101-104, identically src/unnamed/part_000 lines
126-129): baseDelay = retryDelay * 2 ^ (attempts - 1) and
jitteredDelay = baseDelay * (1 + random * 0.5), where random is the fresh
uniform draw Math.random() in [0,1) consumed by this retry. -/
def jitteredDelay (retryDelay random : ℚ) (attempts : Nat) : ℚ :=
  retryDelay * 2 ^ (attempts - 1) * (1 + random * (1 / 2))

/-- Embedding of the onError handler (src/lib/main.ts lines 90-108,
identically src/unnamed/part_000 lines 117-130): given the 1-indexed attempt
count reported by the async machinery, it calls fail() when
attempts > maxRetries and otherwise schedules a retry after the jittered
exponential-backoff delay.  The console.warn/console.error calls are
diagnostics with no control-flow effect and are not modelled. -/
def onError (maxRetries : Nat) (retryDelay random : ℚ) (attempts : Nat) : OnErrorAction :=
  if attempts > maxRetries then OnErrorAction.fail
  else OnErrorAction.scheduleRetry (jitteredDelay retryDelay random attempts)

/-- Final outcome of a modelled run of the retry loop.  pending means the
step budget (fuel) of the model ran out before a terminal state. -/
inductive Outcome where
  | pending
  | succeeded
  | failed
deriving DecidableEq, Repr

/-- Observable record of a run of the retry loop: the 1-indexed attempt
numbers at which the producer was invoked (in order), the backoff delays
scheduled (in order), and the final outcome. -/
structure RunResult where
  invokedAt : List Nat
  delays : List ℚ
  outcome : Outcome
deriving DecidableEq, Repr

/-- Model of the async-component machinery driving the retry loop (the
external collaborator of spec sections 4.2 and 6, i.e. Vue's
defineAsyncComponent: on rejection of the loader it calls the user onError
with attempts = number of invocations so far, and the retry continuation
re-invokes the loader).  fails k says whether the producer rejects on its
k-th invocation; u k is the uniform draw consumed after the k-th failure;
fuel bounds the number of attempts the model unfolds. -/
def runLoader (maxRetries : Nat) (retryDelay : ℚ) (fails : Nat → Bool) (u : Nat → ℚ) :
    Nat → Nat → RunResult
  | 0, _ => ⟨[], [], Outcome.pending⟩
  | fuel + 1, k =>
    if fails k then
      match onError maxRetries retryDelay (u k) k with
      | OnErrorAction.fail => ⟨[k], [], Outcome.failed⟩
      | OnErrorAction.scheduleRetry d =>
        ⟨k :: (runLoader maxRetries retryDelay fails u fuel (k + 1)).invokedAt,
         d :: (runLoader maxRetries retryDelay fails u fuel (k + 1)).delays,
         (runLoader maxRetries retryDelay fails u fuel (k + 1)).outcome⟩
    else ⟨[k], [], Outcome.succeeded⟩

/-- Single-assignment resolution slot of a JS promise: the first resolve
call settles it and every later call is a no-op (the settled value is never
overwritten).  This is the semantics of the resolve captured by
resolveComponent in src/lib/main.ts lines 34-41. -/
def resolveOnce {α : Type} (slot : Option α) (v : α) : Option α :=
  match slot with
  | none => some v
  | some w => some w

/-- Side effects of the gated loading component, in program order:
creating the IntersectionObserver, releasing the observation of the
placeholder element (observer.unobserve), and invoking loadComponent
(which invokes the user-supplied producer). -/
inductive GateAction where
  | createObserver
  | unobserve
  | invokeLoader
deriving DecidableEq, Repr

/-- State of the visibility gate: whether an IntersectionObserver is
currently observing the placeholder element, and the trace of actions
performed so far. -/
structure GateState where
  observing : Bool
  trace : List GateAction
deriving DecidableEq, Repr

/-- Gate state produced by the loading component's onMounted hook
(src/lib/main.ts lines 57-80): when the host lacks IntersectionObserver it
invokes loadComponent immediately and creates no observer; otherwise it
creates an IntersectionObserver on the placeholder element and returns,
waiting for intersection callbacks. -/
def onMountedGate (ioSupported : Bool) : GateState :=
  if ioSupported then ⟨true, [GateAction.createObserver]⟩
  else ⟨false, [GateAction.invokeLoader]⟩

/-- External events delivered to the mounted loading component: an
IntersectionObserver callback whose first entry has the given
isIntersecting flag, or the unmounting of the placeholder component. -/
inductive GateEvent where
  | intersection (isIntersecting : Bool)
  | unmount
deriving DecidableEq, Repr

/-- One event step of the gate (src/lib/main.ts lines 65-80).  An
intersection callback is delivered only while the observer is observing the
element (after observer.unobserve the capability no longer notifies); a
non-intersecting entry returns early; an intersecting entry first calls
observer.unobserve(elRef.value) and then awaits loadComponent().  On
unmount nothing happens: the source registers no unmount/teardown hook, so
the state is unchanged. -/
def gateStep (s : GateState) (e : GateEvent) : GateState :=
  match e with
  | GateEvent.unmount => s
  | GateEvent.intersection i =>
    if s.observing = false then s
    else if i = false then s
    else ⟨false, s.trace ++ [GateAction.unobserve, GateAction.invokeLoader]⟩

/-- Runs the gate over a list of external events. -/
def runGate (s : GateState) (es : List GateEvent) : GateState :=
  es.foldl gateStep s

/-- Number of producer invocations recorded in a gate state. -/
def loadCount (s : GateState) : Nat :=
  s.trace.count GateAction.invokeLoader

/-- Whether an event is an intersection callback with an intersecting
entry, i.e. the one kind of event that can fire the gate. -/
def firing : GateEvent → Bool
  | GateEvent.intersection i => i
  | GateEvent.unmount => false

/-- Vue-version compatibility check of src/unnamed/part_000 lines 19-22:
the major version must be 3 and the minor version at least 2. -/
def isCompatibleVueVersion (major minor : Nat) : Bool :=
  major == 3 && decide (2 ≤ minor)

/-- Configuration of the async component returned by construction:
whether the viewport-gated pipeline is used (false means the raw loader is
handed directly to the machinery, as in the no-IntersectionObserver
branch), and the retry options carried through unchanged. -/
structure AsyncComponentConfig where
  viewportGated : Bool
  maxRetries : Int
  retryDelay : ℚ
deriving DecidableEq, Repr

/-- Embedding of the construction path of defineInVueComponent
(src/unnamed/part_000 lines 24-68): it throws when the Vue version is
incompatible, otherwise falls back to a plain async component with the raw
loader when IntersectionObserver is unsupported, and otherwise builds the
viewport-gated component.  No validation of the options (in particular of
maxRetries, modelled as Int so that negative values can be passed) is
performed anywhere. -/
def defineInVueComponent (major minor : Nat) (ioSupported : Bool)
    (maxRetries : Int) (retryDelay : ℚ) : Except String AsyncComponentConfig :=
  if !isCompatibleVueVersion major minor then
    Except.error "Incompatible Vue Version: Minimum compatible vue version is 3.2.0"
  else if !ioSupported then
    Except.ok ⟨false, maxRetries, retryDelay⟩
  else
    Except.ok ⟨true, maxRetries, retryDelay⟩

/-- Settlement calls a promise executor or its captured callbacks can make:
resolving with a component, or rejecting with an error. -/
inductive SettleCall (E C : Type) where
  | resolveWith (c : C)
  | rejectWith (e : E)
deriving DecidableEq, Repr

/-- Embedding of loadComponent in the gated path (src/lib/main.ts lines
49-55): it awaits the user loader and on fulfilment calls
resolveComponent(component); on rejection the await re-throws and no
settlement call on the outer promise is ever made (there is no catch that
rejects it; the part_000 variant, lines 79-86, even catches and swallows
the error after logging).  The result is the list of settlement calls made
on the outer promise. -/
def loadComponent (E C : Type) (res : Except E C) : List (SettleCall E C) :=
  match res with
  | Except.ok c => [SettleCall.resolveWith c]
  | Except.error _ => []

/-- Settlement state of a JS promise after a list of resolve/reject calls:
the first call settles it, later calls are ignored.  Applied to the outer
promise created by the gated loader (src/lib/main.ts lines 34-41), whose
only capability ever invoked is the captured resolve. -/
def promiseState (E C : Type) (calls : List (SettleCall E C)) : Option (Except E C) :=
  calls.foldl
    (fun s c =>
      match s, c with
      | none, SettleCall.resolveWith v => some (Except.ok v)
      | none, SettleCall.rejectWith e => some (Except.error e)
      | some w, _ => some w)
    none

/-- Number of onError invocations the async-component machinery makes in
reaction to one settlement of the loader promise it was given: onError runs
exactly when that promise rejects. -/
def onErrorInvocations (E C : Type) (settlement : Option (Except E C)) : Nat :=
  match settlement with
  | some (Except.error _) => 1
  | _ => 0

/-- In the no-IntersectionObserver branch of src/unnamed/part_000 (lines
44-65) the raw user loader is handed directly to the machinery, so the user
loader's own settlement is exactly the settlement the machinery observes. -/
def directSettlement (E C : Type) (res : Except E C) : Option (Except E C) :=
  some res

/-! ### Helper lemmas about the retry machinery -/

lemma onError_of_le (maxRetries : Nat) (retryDelay random : ℚ) (attempts : Nat)
    (h : attempts ≤ maxRetries) :
    onError maxRetries retryDelay random attempts =
      OnErrorAction.scheduleRetry (jitteredDelay retryDelay random attempts) := by
  unfold onError
  rw [if_neg (by omega)]

lemma onError_of_gt (maxRetries : Nat) (retryDelay random : ℚ) (attempts : Nat)
    (h : maxRetries < attempts) :
    onError maxRetries retryDelay random attempts = OnErrorAction.fail := by
  unfold onError
  rw [if_pos (by omega)]

lemma runLoader_step_fail (maxRetries : Nat) (retryDelay : ℚ) (fails : Nat → Bool)
    (u : Nat → ℚ) (fuel k : Nat) (hk : fails k = true)
    (h : onError maxRetries retryDelay (u k) k = OnErrorAction.fail) :
    runLoader maxRetries retryDelay fails u (fuel + 1) k = ⟨[k], [], Outcome.failed⟩ := by
  simp [runLoader, hk, h]

lemma runLoader_step_retry (maxRetries : Nat) (retryDelay : ℚ) (fails : Nat → Bool)
    (u : Nat → ℚ) (fuel k : Nat) {d : ℚ} (hk : fails k = true)
    (h : onError maxRetries retryDelay (u k) k = OnErrorAction.scheduleRetry d) :
    runLoader maxRetries retryDelay fails u (fuel + 1) k =
      ⟨k :: (runLoader maxRetries retryDelay fails u fuel (k + 1)).invokedAt,
       d :: (runLoader maxRetries retryDelay fails u fuel (k + 1)).delays,
       (runLoader maxRetries retryDelay fails u fuel (k + 1)).outcome⟩ := by
  simp [runLoader, hk, h]

lemma runLoader_step_succeed (maxRetries : Nat) (retryDelay : ℚ) (fails : Nat → Bool)
    (u : Nat → ℚ) (fuel k : Nat) (hk : fails k = false) :
    runLoader maxRetries retryDelay fails u (fuel + 1) k = ⟨[k], [], Outcome.succeeded⟩ := by
  simp [runLoader, hk]

lemma runLoader_allFail (maxRetries : Nat) (retryDelay : ℚ) (fails : Nat → Bool)
    (u : Nat → ℚ) (hf : ∀ k, fails k = true) :
    ∀ t k, k + t = maxRetries + 1 →
      runLoader maxRetries retryDelay fails u (t + 1) k =
        ⟨List.range' k (t + 1),
         (List.range' k t).map (fun j => jitteredDelay retryDelay (u j) j),
         Outcome.failed⟩ := by
  intro t
  induction t with
  | zero =>
    intro k hk
    have hk' : k = maxRetries + 1 := by omega
    subst hk'
    rw [runLoader_step_fail maxRetries retryDelay fails u 0 (maxRetries + 1)
      (hf (maxRetries + 1))
      (onError_of_gt maxRetries retryDelay (u (maxRetries + 1)) (maxRetries + 1) (by omega))]
    simp [List.range']
  | succ t ih =>
    intro k hk
    have hkle : k ≤ maxRetries := by omega
    rw [runLoader_step_retry maxRetries retryDelay fails u (t + 1) k (hf k)
      (onError_of_le maxRetries retryDelay (u k) k hkle)]
    rw [ih (k + 1) (by omega)]
    simp [List.range']

lemma runLoader_succeedAt (maxRetries m : Nat) (retryDelay : ℚ) (u : Nat → ℚ)
    (hm : m ≤ maxRetries + 1) :
    ∀ t fuel k, k + t = m → t + 1 ≤ fuel →
      runLoader maxRetries retryDelay (fun j => decide (j < m)) u fuel k =
        ⟨List.range' k (t + 1),
         (List.range' k t).map (fun j => jitteredDelay retryDelay (u j) j),
         Outcome.succeeded⟩ := by
  intro t
  induction t with
  | zero =>
    intro fuel k hk hfuel
    have hk' : k = m := by omega
    obtain ⟨f, rfl⟩ : ∃ f, fuel = f + 1 := ⟨fuel - 1, by omega⟩
    rw [runLoader_step_succeed maxRetries retryDelay _ u f k (by simp [hk'])]
    simp [List.range']
  | succ t ih =>
    intro fuel k hk hfuel
    have hklt : k < m := by omega
    have hkle : k ≤ maxRetries := by omega
    obtain ⟨f, rfl⟩ : ∃ f, fuel = f + 1 := ⟨fuel - 1, by omega⟩
    rw [runLoader_step_retry maxRetries retryDelay _ u f k (by simp [hklt])
      (onError_of_le maxRetries retryDelay (u k) k hkle)]
    rw [ih f (k + 1) (by omega) (by omega)]
    simp [List.range']

lemma runLoader_invokedAt_consecutive (maxRetries : Nat) (retryDelay : ℚ)
    (fails : Nat → Bool) (u : Nat → ℚ) :
    ∀ fuel k,
      (runLoader maxRetries retryDelay fails u fuel k).invokedAt =
        List.range' k (runLoader maxRetries retryDelay fails u fuel k).invokedAt.length := by
  intro fuel
  induction fuel with
  | zero => intro k; simp [runLoader]
  | succ f ih =>
    intro k
    by_cases hk : fails k
    · cases h : onError maxRetries retryDelay (u k) k with
      | fail =>
        rw [runLoader_step_fail maxRetries retryDelay fails u f k hk h]
        simp [List.range']
      | scheduleRetry d =>
        rw [runLoader_step_retry maxRetries retryDelay fails u f k hk h]
        simp only [List.length_cons, List.range']
        rw [← ih (k + 1)]
    · rw [runLoader_step_succeed maxRetries retryDelay fails u f k
        (Bool.not_eq_true _ ▸ hk)]
      simp [List.range']

/-! ### Helper lemmas about the visibility gate -/

lemma runGate_cons (s : GateState) (e : GateEvent) (es : List GateEvent) :
    runGate s (e :: es) = runGate (gateStep s e) es := rfl

lemma gateStep_of_not_observing (s : GateState) (h : s.observing = false) (e : GateEvent) :
    gateStep s e = s := by
  cases e with
  | unmount => rfl
  | intersection i => simp [gateStep, h]

lemma runGate_of_not_observing (s : GateState) (h : s.observing = false) :
    ∀ es, runGate s es = s := by
  intro es
  induction es with
  | nil => rfl
  | cons e es ih =>
    rw [runGate_cons, gateStep_of_not_observing s h e]
    exact ih

lemma runGate_of_observing :
    ∀ (es : List GateEvent) (s : GateState), s.observing = true →
      runGate s es =
        if es.any firing then
          ⟨false, s.trace ++ [GateAction.unobserve, GateAction.invokeLoader]⟩
        else s := by
  intro es
  induction es with
  | nil => intro s _; simp [runGate]
  | cons e es ih =>
    intro s h
    rw [runGate_cons]
    cases e with
    | unmount =>
      rw [show gateStep s GateEvent.unmount = s from rfl, ih s h]
      simp [firing]
    | intersection i =>
      cases i with
      | false =>
        have hstep : gateStep s (GateEvent.intersection false) = s := by
          simp [gateStep]
        rw [hstep, ih s h]
        simp [firing]
      | true =>
        have hstep : gateStep s (GateEvent.intersection true) =
            ⟨false, s.trace ++ [GateAction.unobserve, GateAction.invokeLoader]⟩ := by
          simp [gateStep, h]
        rw [hstep, runGate_of_not_observing _ rfl es]
        simp [firing]

/-! ### The claims -/

/-- Claim C1: for every maxRetries = n ≥ 0, a producer that fails on every
invocation is invoked exactly n + 1 times and the loader then reaches
terminal failure; onError, called with attempts = k after the k-th failure,
schedules a retry (with the jittered backoff delay) for every k ≤ n and
calls fail() exactly at k = n + 1 with nothing further scheduled — the run
records exactly the n delays of the failures 1..n. -/
theorem c1_always_failing_producer (n : Nat) (retryDelay : ℚ) (fails : Nat → Bool)
    (u : Nat → ℚ) (hf : ∀ k, fails k = true) :
    runLoader n retryDelay fails u (n + 1) 1 =
      ⟨List.range' 1 (n + 1),
       (List.range' 1 n).map (fun j => jitteredDelay retryDelay (u j) j),
       Outcome.failed⟩
    ∧ (runLoader n retryDelay fails u (n + 1) 1).invokedAt.length = n + 1
    ∧ (∀ k, 1 ≤ k → k ≤ n →
        onError n retryDelay (u k) k =
          OnErrorAction.scheduleRetry (jitteredDelay retryDelay (u k) k))
    ∧ onError n retryDelay (u (n + 1)) (n + 1) = OnErrorAction.fail := by
  have h := runLoader_allFail n retryDelay fails u hf n 1 (by omega)
  refine ⟨h, ?_, ?_, ?_⟩
  · rw [h]
    simp
  · intro k _ hk2
    exact onError_of_le n retryDelay (u k) k hk2
  · exact onError_of_gt n retryDelay (u (n + 1)) (n + 1) (by omega)

theorem c1_always_failing_producer_witness :
    runLoader 2 1 (fun _ => true) (fun _ => 0) 3 1 =
      ⟨List.range' 1 3,
       (List.range' 1 2).map (fun j => jitteredDelay 1 0 j),
       Outcome.failed⟩ :=
  (c1_always_failing_producer 2 1 (fun _ => true) (fun _ => 0) (fun _ => rfl)).1

/-- Claim C2: for every failed attempt k with 1 ≤ k ≤ maxRetries, onError
schedules a retry whose delay is exactly retryDelay * 2^(k-1) * (1 + u * 0.5)
for the uniform draw u of that retry; for 0 ≤ u < 1 and retryDelay > 0 the
delay lies in the half-open interval
[retryDelay * 2^(k-1), retryDelay * 2^(k-1) * 1.5); and there is no upper
cap: the delays exceed every bound as the attempt count grows. -/
theorem c2_backoff_delay (n k : Nat) (retryDelay u : ℚ) (_hk1 : 1 ≤ k) (hk2 : k ≤ n)
    (hu0 : 0 ≤ u) (hu1 : u < 1) (hrd : 0 < retryDelay) :
    onError n retryDelay u k =
      OnErrorAction.scheduleRetry (retryDelay * 2 ^ (k - 1) * (1 + u * (1 / 2)))
    ∧ retryDelay * 2 ^ (k - 1) ≤ jitteredDelay retryDelay u k
    ∧ jitteredDelay retryDelay u k < retryDelay * 2 ^ (k - 1) * (3 / 2)
    ∧ ∀ M : ℚ, ∃ j : Nat, M < jitteredDelay retryDelay u j := by
  have hB : (0 : ℚ) < retryDelay * 2 ^ (k - 1) := by positivity
  refine ⟨onError_of_le n retryDelay u k hk2, ?_, ?_, ?_⟩
  · unfold jitteredDelay
    nlinarith [mul_nonneg hB.le hu0]
  · unfold jitteredDelay
    nlinarith [mul_lt_mul_of_pos_left hu1 hB]
  · intro M
    obtain ⟨j, hj⟩ := pow_unbounded_of_one_lt (M / retryDelay) (by norm_num : (1 : ℚ) < 2)
    refine ⟨j + 1, ?_⟩
    rw [div_lt_iff₀ hrd] at hj
    have h2 : (0 : ℚ) < 2 ^ j := by positivity
    unfold jitteredDelay
    simp only [Nat.add_sub_cancel]
    nlinarith [mul_nonneg (mul_pos hrd h2).le hu0]

theorem c2_backoff_delay_witness :
    onError 2 1 0 1 = OnErrorAction.scheduleRetry (1 * 2 ^ 0 * (1 + 0 * (1 / 2)))
    ∧ (1 : ℚ) * 2 ^ 0 ≤ jitteredDelay 1 0 1
    ∧ jitteredDelay 1 0 1 < 1 * 2 ^ 0 * (3 / 2) :=
  ⟨(c2_backoff_delay 2 1 1 0 (by norm_num) (by norm_num) (by norm_num) (by norm_num)
      (by norm_num)).1,
   (c2_backoff_delay 2 1 1 0 (by norm_num) (by norm_num) (by norm_num) (by norm_num)
      (by norm_num)).2.1,
   (c2_backoff_delay 2 1 1 0 (by norm_num) (by norm_num) (by norm_num) (by norm_num)
      (by norm_num)).2.2.1⟩

/-- Claim C5: the attempt counter is monotonically non-decreasing and
increases by exactly 1 per failed attempt — the invocation record of any
run is the consecutive range starting at its first attempt number — the
handler reaches terminal failure exactly when attempts > maxRetries and
never before, and for maxRetries = 0 a single producer failure yields
immediate terminal failure after exactly 1 attempt with no delay ever
scheduled. -/
theorem c5_attempt_monotonic (n : Nat) (retryDelay random : ℚ) (fails : Nat → Bool)
    (u : Nat → ℚ) :
    (∀ fuel k, (runLoader n retryDelay fails u fuel k).invokedAt =
        List.range' k (runLoader n retryDelay fails u fuel k).invokedAt.length)
    ∧ (∀ k, onError n retryDelay random k = OnErrorAction.fail ↔ n < k)
    ∧ runLoader 0 retryDelay (fun _ => true) u 1 1 = ⟨[1], [], Outcome.failed⟩ := by
  refine ⟨runLoader_invokedAt_consecutive n retryDelay fails u, ?_, ?_⟩
  · intro k
    constructor
    · intro h
      by_contra hc
      rw [onError_of_le n retryDelay random k (by omega)] at h
      exact OnErrorAction.noConfusion h
    · intro h
      exact onError_of_gt n retryDelay random k h
  · rw [runLoader_step_fail 0 retryDelay (fun _ => true) u 0 1 rfl
      (onError_of_gt 0 retryDelay (u 1) 1 (by omega))]

/-- Claim C6: with maxRetries = n, a producer failing on attempts 1..m-1
and succeeding on attempt m ≤ n + 1 is invoked exactly m times (attempts
1..m and nothing afterwards, however large the remaining step budget),
schedules exactly the m - 1 backoff delays that precede the success and
none after it, and the produced value is delivered through the
single-assignment promise slot: the first resolution settles it and a later
resolution attempt never overwrites the stored value. -/
theorem c6_success_after_failures (n m fuel : Nat) (retryDelay : ℚ) (u : Nat → ℚ)
    {α : Type} (w v : α) (hm1 : 1 ≤ m) (hm2 : m ≤ n + 1) (hfuel : m ≤ fuel) :
    runLoader n retryDelay (fun j => decide (j < m)) u fuel 1 =
      ⟨List.range' 1 m,
       (List.range' 1 (m - 1)).map (fun j => jitteredDelay retryDelay (u j) j),
       Outcome.succeeded⟩
    ∧ resolveOnce (none : Option α) v = some v
    ∧ resolveOnce (some w) v = some w := by
  refine ⟨?_, rfl, rfl⟩
  have h := runLoader_succeedAt n m retryDelay u hm2 (m - 1) fuel 1 (by omega) (by omega)
  rw [show m - 1 + 1 = m from by omega] at h
  exact h

theorem c6_success_after_failures_witness :
    runLoader 2 1 (fun j => decide (j < 3)) (fun _ => 0) 3 1 =
      ⟨List.range' 1 3,
       (List.range' 1 2).map (fun j => jitteredDelay 1 0 j),
       Outcome.succeeded⟩
    ∧ resolveOnce (none : Option Nat) 7 = some 7
    ∧ resolveOnce (some 5) 7 = some 5 :=
  c6_success_after_failures 2 3 3 1 (fun _ => 0) 5 7 (by omega) (by omega) (by omega)

/-- Claim C3: per gate, the loader start is invoked exactly once: over any
sequence of intersection events, loadComponent runs once when some event
intersects and zero times otherwise — non-intersecting events are always
ignored, and no number of further events after the first crossing can start
it a second time. -/
theorem c3_visibility_single_start (bs : List Bool) :
    loadCount (runGate (onMountedGate true) (bs.map GateEvent.intersection)) =
      (if bs.any (fun b => b) then 1 else 0)
    ∧ ∀ t : GateState, gateStep t (GateEvent.intersection false) = t := by
  constructor
  · rw [runGate_of_observing (bs.map GateEvent.intersection) (onMountedGate true) rfl]
    have hany : (bs.map GateEvent.intersection).any firing = bs.any (fun b => b) := by
      induction bs with
      | nil => rfl
      | cons b bs ih => simp [firing, ih]
    rw [hany]
    by_cases hb : bs.any (fun b => b) = true
    · rw [if_pos hb, if_pos hb]
      decide
    · rw [if_neg hb, if_neg hb]
      decide
  · intro t
    rcases t with ⟨obs, tr⟩
    cases obs <;> simp [gateStep]

/-- Claim C4 (code bug in the source): unmounting the placeholder before
the gate fires is a no-op — the source registers no teardown hook, so the
IntersectionObserver keeps observing (the detection capability is NOT
released: observing stays true and no unobserve action is recorded), while
the callback is indeed not invoked and the producer is invoked zero
times. -/
theorem c4_unmount_releases_nothing :
    runGate (onMountedGate true) [GateEvent.unmount] = onMountedGate true
    ∧ (runGate (onMountedGate true) [GateEvent.unmount]).observing = true
    ∧ GateAction.unobserve ∉ (runGate (onMountedGate true) [GateEvent.unmount]).trace
    ∧ loadCount (runGate (onMountedGate true) [GateEvent.unmount]) = 0 := by
  decide

/-- Claim C7: when the host lacks IntersectionObserver the gate is
pre-fired: onMounted creates no observer and invokes the producer exactly
once immediately, later events change nothing, and in the part_000 variant
construction returns the non-gated component that hands the raw loader
directly to the async machinery. -/
theorem c7_no_observer_immediate_load :
    onMountedGate false = ⟨false, [GateAction.invokeLoader]⟩
    ∧ GateAction.createObserver ∉ (onMountedGate false).trace
    ∧ loadCount (onMountedGate false) = 1
    ∧ (∀ es : List GateEvent, runGate (onMountedGate false) es = onMountedGate false)
    ∧ (∀ (r : Int) (rd : ℚ),
        defineInVueComponent 3 2 false r rd = Except.ok ⟨false, r, rd⟩) := by
  refine ⟨rfl, by decide, by decide, ?_, ?_⟩
  · exact runGate_of_not_observing (onMountedGate false) rfl
  · intro r rd
    rfl

/-- Claim C8: in every execution in which the gate fires, the observation
is released synchronously before the producer is invoked: whenever
invokeLoader occurs in the gate's trace, unobserve occurs at a strictly
earlier position. -/
theorem c8_unobserve_before_load (es : List GateEvent)
    (h : GateAction.invokeLoader ∈ (runGate (onMountedGate true) es).trace) :
    (runGate (onMountedGate true) es).trace.indexOf GateAction.unobserve <
      (runGate (onMountedGate true) es).trace.indexOf GateAction.invokeLoader := by
  rw [runGate_of_observing es (onMountedGate true) rfl] at h ⊢
  by_cases hf : es.any firing = true
  · rw [if_pos hf]
    decide
  · rw [if_neg hf] at h
    exact absurd h (by decide)

theorem c8_unobserve_before_load_witness :
    GateAction.invokeLoader ∈ (runGate (onMountedGate true) [GateEvent.intersection true]).trace
    ∧ (runGate (onMountedGate true) [GateEvent.intersection true]).trace.indexOf
        GateAction.unobserve <
      (runGate (onMountedGate true) [GateEvent.intersection true]).trace.indexOf
        GateAction.invokeLoader :=
  ⟨by decide, c8_unobserve_before_load [GateEvent.intersection true] (by decide)⟩

/-- Claim C9 counterexample: construction with the invalid option
maxRetries = -1 (on a compatible host, Vue 3.5) raises no configuration
error at all — it returns the viewport-gated component configured with the
negative value, refuting fail-fast validation of invalid options. -/
theorem c9_counterexample :
    (-1 : Int) < 0
    ∧ defineInVueComponent 3 5 true (-1) 1 = Except.ok ⟨true, -1, 1⟩ := by
  constructor
  · decide
  · rfl

/-- Claim C9 (amended): construction in an incompatible host environment
(Vue version outside 3.x with minor ≥ 2) fails fast by raising the
configuration error before any producer attempt — the error result carries
no component, so no attempt can start — while invalid options such as a
negative maxRetries are not validated: on a compatible host, construction
succeeds for every maxRetries value. -/
theorem c9_construction_amended (major minor : Nat) (io : Bool) (r : Int) (rd : ℚ) :
    (isCompatibleVueVersion major minor = false →
      defineInVueComponent major minor io r rd =
        Except.error "Incompatible Vue Version: Minimum compatible vue version is 3.2.0")
    ∧ (isCompatibleVueVersion major minor = true →
      (defineInVueComponent major minor io r rd).isOk = true) := by
  constructor
  · intro h
    unfold defineInVueComponent
    rw [h]
    rfl
  · intro h
    unfold defineInVueComponent
    rw [h]
    cases io <;> rfl

theorem c9_construction_amended_witness :
    isCompatibleVueVersion 2 7 = false
    ∧ defineInVueComponent 2 7 true (-1) 1 =
        Except.error "Incompatible Vue Version: Minimum compatible vue version is 3.2.0" :=
  ⟨by decide, (c9_construction_amended 2 7 true (-1) 1).1 (by decide)⟩

/-- Claim C10: the promise the gated path hands to the async machinery has
no rejection path — only the captured resolve, called after the user loader
succeeds, can settle it.  A rejecting user loader therefore makes no
settlement call, the promise stays pending forever, the machinery's onError
is never invoked for that failure (zero retries scheduled), whereas in the
direct no-IntersectionObserver path of part_000 the same rejection does
reach onError. -/
theorem c10_gated_promise_never_rejects (E C : Type) (res : Except E C) (e : E) :
    onErrorInvocations E C (promiseState E C (loadComponent E C res)) = 0
    ∧ loadComponent E C (Except.error e) = []
    ∧ promiseState E C (loadComponent E C (Except.error e)) = none
    ∧ onErrorInvocations E C (directSettlement E C (Except.error e)) = 1 := by
  refine ⟨?_, rfl, rfl, rfl⟩
  cases res with
  | ok c => rfl
  | error e2 => rfl
